/-
  Verification of the lumberjack logging library's dispatch engine and
  built-in backend against its specification.

  Shallow embedding of:
  * the branchless level-gating / dispatch engine
    (src/src/builtin.cpp, "core.cpp" snapshot, lines 224-438),
  * the TimestampCache and WriteBuffer utility classes
    (src/include/lumberjack/utils.h),
  * the built-in backend built on those utilities (src/unnamed/part_000).

  Modelling conventions:
  * C++ function pointers stored in the four dispatch tables are two-valued
    (no-op variant vs active variant); they are embedded as the inductive
    `EntryKind`.  The tables themselves are 5-slot arrays, embedded as
    `List EntryKind` of length `LOG_COUNT`.
  * A backend descriptor's five operation pointers are embedded as
    `Option Nat` (a `Nat` identifies a concrete C function; `none` is the
    null pointer).  The name pointer is `Option String`.
  * Calls the dispatch engine makes into the active backend are observable
    events (`Event`); the steady monotonic clock is a `Nat` in the state,
    advanced only by the environment action `Call.tick`.
  * printf-style formatting with arguments is outside the embedding: a log
    call carries the already-formatted text, and `vsnprintf` into the
    1024-byte stack buffer is embedded as truncation to 1023 characters.
  * `FILE*` streams are `Option Nat` (`none` = null stream); `fwrite` and
    `fflush` on a stream are sink events.  `fwrite` on a null stream is
    undefined behaviour in C and delivers nothing in the model, while
    `memcpy` past the buffer end (also undefined behaviour) is embedded as
    plain appending, which is what the surrounding position arithmetic of
    the source does.
-/
import Mathlib

namespace Lumberjack

/-! ### Log levels (include/lumberjack/lumberjack.h, enum LogLevel) -/

inductive LogLevel where
  | LOG_LEVEL_NONE
  | LOG_LEVEL_ERROR
  | LOG_LEVEL_WARN
  | LOG_LEVEL_INFO
  | LOG_LEVEL_DEBUG
deriving DecidableEq, Repr

/-- Sentinel used solely to size the dispatch arrays (`LOG_COUNT = 5`). -/
def LOG_COUNT : Nat := 5

/-- The numeric value of the enumerator, i.e. the level's rank. -/
def LogLevel.rank : LogLevel → Nat
  | .LOG_LEVEL_NONE  => 0
  | .LOG_LEVEL_ERROR => 1
  | .LOG_LEVEL_WARN  => 2
  | .LOG_LEVEL_INFO  => 3
  | .LOG_LEVEL_DEBUG => 4

/-! ### Backend descriptors (struct LogBackend) -/

/-- A backend descriptor: a name pointer and five operation pointers.
A `Nat` stands for the address of a concrete C function; `none` is null. -/
structure LogBackend where
  name : Option String
  init : Option Nat
  shutdown : Option Nat
  log_write : Option Nat
  span_begin : Option Nat
  span_end : Option Nat
deriving DecidableEq, Repr

/-- The validation performed at the top of `set_backend`: all five operation
pointers must be non-null.  The `name` pointer is NOT checked by the source. -/
def validBackend (b : LogBackend) : Bool :=
  b.init.isSome && b.shutdown.isSome && b.log_write.isSome &&
    b.span_begin.isSome && b.span_end.isSome

/-- The placeholder backend statically installed before any `set_backend`
call (source `g_activeBackend` initializer, ids 0-4 standing for the five
`backend_noop_*` functions, which do nothing and return null). -/
def noopBackend : LogBackend :=
  { name := some "noop", init := some 0, shutdown := some 1,
    log_write := some 2, span_begin := some 3, span_end := some 4 }

/-! ### Dispatch tables and engine state -/

/-- A dispatch-table slot holds one of exactly two function pointers:
the no-op variant or the active (dispatching) variant. -/
inductive EntryKind where
  | noop
  | dispatch
deriving DecidableEq, Repr

/-- Read a 5-slot table at a level's rank (array indexing `table[level]`). -/
def tableAt (t : List EntryKind) (l : LogLevel) : EntryKind :=
  t.getD l.rank .noop

/-- The static initializer of each table: every slot wired to the no-op. -/
def initialTables : List EntryKind :=
  [.noop, .noop, .noop, .noop, .noop]

/-- The process-wide mutable state of the dispatch engine: the four
function-pointer tables, the current level, the active backend copy, and
the ambient steady-clock instant (advanced only by `Call.tick`). -/
structure DispatchState where
  g_logFunctions : List EntryKind
  g_clockFunctions : List EntryKind
  g_spanBeginFunctions : List EntryKind
  g_spanEndFunctions : List EntryKind
  g_currentLevel : LogLevel
  g_activeBackend : LogBackend
  time : Nat
deriving DecidableEq, Repr

/-- State at static initialization: all four tables no-op, current level
`LOG_LEVEL_INFO`, the no-op placeholder backend active. -/
def initState : DispatchState :=
  { g_logFunctions := initialTables
    g_clockFunctions := initialTables
    g_spanBeginFunctions := initialTables
    g_spanEndFunctions := initialTables
    g_currentLevel := .LOG_LEVEL_INFO
    g_activeBackend := noopBackend
    time := 0 }

/-! ### Observable events

Calls crossing from the dispatch engine into a backend descriptor. -/

inductive Event where
  | shutdownEv (b : LogBackend)
  | initEv (b : LogBackend)
  | logWriteEv (b : LogBackend) (level : LogLevel) (message : String)
  | spanBeginEv (b : LogBackend) (level : LogLevel) (name : String)
  | spanEndEv (b : LogBackend) (level : LogLevel) (name : String) (elapsed_us : Int)
deriving DecidableEq, Repr

/-- The backend a message/span delivery event targets (`init`/`shutdown`
lifecycle events are not deliveries). -/
def deliveredTo : Event → Option LogBackend
  | .logWriteEv b _ _ => some b
  | .spanBeginEv b _ _ => some b
  | .spanEndEv b _ _ _ => some b
  | _ => none

/-! ### Public API (core.cpp snapshot of src/src/builtin.cpp) -/

/-- `set_level`: rewires all four dispatch tables so that slots
`[1..level]` point to the active implementations and every other slot
(including slot 0, `LOG_LEVEL_NONE`) points to the no-ops.  The source
loop condition is `i > 0 && i <= level`. -/
def set_level (level : LogLevel) (s : DispatchState) : DispatchState :=
  let rebuilt : List EntryKind := (List.range LOG_COUNT).map fun i =>
    if 0 < i ∧ i ≤ level.rank then .dispatch else .noop
  { s with
    g_currentLevel := level
    g_logFunctions := rebuilt
    g_clockFunctions := rebuilt
    g_spanBeginFunctions := rebuilt
    g_spanEndFunctions := rebuilt }

/-- `set_backend`: rejects a null pointer or a descriptor with any null
operation (returning with no effect); otherwise calls `shutdown` on the
currently active descriptor, copies the new descriptor by value into
`g_activeBackend`, then calls `init` on the newly stored copy.  The event
list records the observed call order. -/
def set_backend (ob : Option LogBackend) (s : DispatchState) :
    DispatchState × List Event :=
  match ob with
  | none => (s, [])
  | some b =>
    if validBackend b then
      ({ s with g_activeBackend := b },
        [.shutdownEv s.g_activeBackend, .initEv b])
    else
      (s, [])

/-- `get_level`. -/
def get_level (s : DispatchState) : LogLevel := s.g_currentLevel

/-- `get_backend`: the address of `g_activeBackend` — in the embedding the
stored descriptor copy itself (the pointer is never null). -/
def get_backend (s : DispatchState) : LogBackend := s.g_activeBackend

/-- `vsnprintf` into the 1024-byte stack buffer of `log_dispatch`:
the formatted text truncated to 1023 characters. -/
def vsnprintf1024 (text : String) : String := text.take 1023

/-! ### Client calls and their semantics -/

/-- The calls a client can make into the dispatch engine, plus `tick`
(the environment letting the steady clock advance) and `seqC`/`skip` for
sequencing.  A span's body runs between its construction and destruction. -/
inductive Call where
  | setLevelC (level : LogLevel)
  | setBackendC (ob : Option LogBackend)
  | logC (level : LogLevel) (text : String)
  | spanC (level : LogLevel) (name : String) (body : Call)
  | seqC (a b : Call)
  | tick (n : Nat)
  | skip
deriving DecidableEq, Repr

/-- Operational semantics of a call: the state update together with the
trace of backend events it produces.

* `logC` is the log macro: it invokes `g_logFunctions[level]`; the no-op
  variant returns immediately, the dispatch variant formats the text and
  forwards it to the active backend's `log_write`.
* `spanC` is `Span::Span` / `Span::~Span`: construction reads
  `g_clockFunctions[level]` (no-op variant returns the zero time point)
  and calls `g_spanBeginFunctions[level]`; destruction - after the body -
  reads the clock and the span-end table again (at the stored `m_level`)
  and reports `end - start` microseconds. -/
def runCall (s : DispatchState) : Call → DispatchState × List Event
  | .setLevelC l => (set_level l s, [])
  | .setBackendC ob => set_backend ob s
  | .logC l text =>
    match tableAt s.g_logFunctions l with
    | .noop => (s, [])
    | .dispatch => (s, [.logWriteEv s.g_activeBackend l (vsnprintf1024 text)])
  | .spanC l name body =>
    let m_start : Nat :=
      match tableAt s.g_clockFunctions l with
      | .noop => 0
      | .dispatch => s.time
    let esBegin : List Event :=
      match tableAt s.g_spanBeginFunctions l with
      | .noop => []
      | .dispatch => [.spanBeginEv s.g_activeBackend l name]
    let r := runCall s body
    let endInstant : Nat :=
      match tableAt r.1.g_clockFunctions l with
      | .noop => 0
      | .dispatch => r.1.time
    let esEnd : List Event :=
      match tableAt r.1.g_spanEndFunctions l with
      | .noop => []
      | .dispatch =>
        [.spanEndEv r.1.g_activeBackend l name ((endInstant : Int) - (m_start : Int))]
    (r.1, esBegin ++ r.2 ++ esEnd)
  | .seqC a b =>
    let ra := runCall s a
    let rb := runCall ra.1 b
    (rb.1, ra.2 ++ rb.2)
  | .tick n => ({ s with time := s.time + n }, [])
  | .skip => (s, [])

/-! ### TimestampCache (include/lumberjack/utils.h, lines 27-71)

`refresh()` formats the current wall clock with
`strftime "%Y-%m-%d %H:%M:%S"` followed by `snprintf ".%03lld"` of the
millisecond remainder.  The wall clock and its broken-down form are
ambient inputs of the embedding: `get` takes the current steady-clock
instant `now` and the string `fmtNow` that `refresh` would produce at
this instant.  The `snprintf` into the 32-byte `m_buf` is the
`.take 31` clamp. -/

/-- The effect of `snprintf` into a `cap`-byte buffer on the formatted text:
when the would-be length reaches the capacity, the written string is clamped
to `cap - 1` characters (the last byte holds the terminator). -/
def snprintfClamp (cap : Nat) (text : String) : String :=
  if cap ≤ text.length then text.take (cap - 1) else text

structure TimestampCache where
  m_interval_ms : Nat
  m_buf : String
  m_expiry : Nat
deriving DecidableEq, Repr

/-- A default-constructed cache: interval 0, empty buffer, zero expiry. -/
def TimestampCache.mkDefault : TimestampCache :=
  { m_interval_ms := 0, m_buf := "", m_expiry := 0 }

/-- `set_interval_ms`: store the interval and zero the expiry so the next
`get` refreshes. -/
def TimestampCache.set_interval_ms (c : TimestampCache) (ms : Nat) :
    TimestampCache :=
  { c with m_interval_ms := ms, m_expiry := 0 }

/-- `get`: with interval 0 always recompute; otherwise reuse `m_buf` until
`now >= m_expiry`, then recompute and set the expiry to `now + interval`.
Returns the updated cache, the returned string, and the `did_refresh`
output flag. -/
def TimestampCache.get (c : TimestampCache) (now : Nat) (fmtNow : String) :
    TimestampCache × String × Bool :=
  if c.m_interval_ms = 0 then
    ({ c with m_buf := snprintfClamp 32 fmtNow }, snprintfClamp 32 fmtNow, true)
  else if c.m_expiry ≤ now then
    ({ c with m_buf := snprintfClamp 32 fmtNow,
              m_expiry := now + c.m_interval_ms },
      snprintfClamp 32 fmtNow, true)
  else
    (c, c.m_buf, false)

/-- Broken-down wall-clock time, the result of `localtime`. -/
structure Tm where
  year : Nat
  month : Nat
  day : Nat
  hour : Nat
  minute : Nat
  sec : Nat
  msec : Nat
deriving DecidableEq, Repr

/-- Zero-pad to two digits (`strftime` `%m %d %H %M %S` fields). -/
def pad2 (n : Nat) : String :=
  if n < 10 then "0" ++ toString n else toString n

/-- Zero-pad to three digits (`snprintf` `%03lld` of the milliseconds). -/
def pad3 (n : Nat) : String :=
  if n < 10 then "00" ++ toString n
  else if n < 100 then "0" ++ toString n
  else toString n

/-- The string `refresh()` produces for a given broken-down instant:
`"%Y-%m-%d %H:%M:%S"` then `".%03lld"`. -/
def formatTimestamp (t : Tm) : String :=
  toString t.year ++ "-" ++ pad2 t.month ++ "-" ++ pad2 t.day ++ " " ++
    pad2 t.hour ++ ":" ++ pad2 t.minute ++ ":" ++ pad2 t.sec ++
    "." ++ pad3 t.msec

/-! ### WriteBuffer (include/lumberjack/utils.h, lines 87-160)

`m_buf` is embedded as the flag `m_allocated` (pointer non-null) plus the
accumulated content `m_data`; `m_pos` is `m_data.length`.  `FILE*` is
`Option Nat` (`none` = null). -/

/-- Events on the output stream: an `fwrite` of a chunk, or an `fflush`. -/
inductive SinkEv where
  | fwriteEv (file : Nat) (data : String)
  | fflushEv (file : Nat)
deriving DecidableEq, Repr

structure WriteBuffer where
  m_enabled : Bool
  m_allocated : Bool
  m_size : Nat
  m_data : String
deriving DecidableEq, Repr

/-- A default-constructed buffer: disabled, null pointer, size 0. -/
def WriteBuffer.mkDefault : WriteBuffer :=
  { m_enabled := false, m_allocated := false, m_size := 0, m_data := "" }

/-- `fwrite` + `fflush` directly on the stream.  On a null stream this is
undefined in C; the model delivers nothing. -/
def directWrite (output : Option Nat) (data : String) : List SinkEv :=
  match output with
  | some f => [.fwriteEv f data, .fflushEv f]
  | none => []

/-- `flush`: `if (m_pos > 0 && output) { fwrite; fflush; m_pos = 0; }`.
Note the null-stream guard: on a null stream nothing happens and the
fill position is NOT reset. -/
def WriteBuffer.flush (wb : WriteBuffer) (output : Option Nat) :
    WriteBuffer × List SinkEv :=
  match output with
  | some f =>
    if 0 < wb.m_data.length then
      ({ wb with m_data := "" }, [.fwriteEv f wb.m_data, .fflushEv f])
    else
      (wb, [])
  | none => (wb, [])

/-- `write`: direct write when disabled or unallocated; flush-then-direct
when `len >= m_size`; otherwise flush if the data will not fit
(`m_pos + len > m_size`) and then `memcpy` + `m_pos += len` (embedded as
appending, unconditionally — the source does not re-check the fit after
the flush attempt). -/
def WriteBuffer.write (wb : WriteBuffer) (output : Option Nat)
    (data : String) : WriteBuffer × List SinkEv :=
  if !wb.m_enabled || !wb.m_allocated then
    (wb, directWrite output data)
  else if wb.m_size ≤ data.length then
    let r := wb.flush output
    (r.1, r.2 ++ directWrite output data)
  else
    let r := if wb.m_size < wb.m_data.length + data.length
      then wb.flush output else (wb, [])
    ({ r.1 with m_data := r.1.m_data ++ data }, r.2)

/-- `enable`: flush pending data, reallocate only if the size changed
(`malloc` yields a non-null pointer, including for size 0 on the target
C library), zero the fill position, set the enabled flag. -/
def WriteBuffer.enable (wb : WriteBuffer) (output : Option Nat)
    (size : Nat) : WriteBuffer × List SinkEv :=
  let r := wb.flush output
  let wb2 := if r.1.m_size ≠ size
    then { r.1 with m_allocated := true, m_size := size }
    else r.1
  ({ wb2 with m_data := "", m_enabled := true }, r.2)

/-- `disable`: flush pending data, free the buffer, clear all state. -/
def WriteBuffer.disable (wb : WriteBuffer) (output : Option Nat) :
    WriteBuffer × List SinkEv :=
  let r := wb.flush output
  ({ m_enabled := false, m_allocated := false, m_size := 0, m_data := "" },
    r.2)

/-! ### Built-in backend (src/unnamed/part_000) -/

/-- Level-to-string lookup table `g_levelStrings` (fixed width,
trailing-space padded). -/
def g_levelStrings : List String :=
  ["NONE ", "ERROR", "WARN ", "INFO ", "DEBUG"]

/-- The built-in backend's mutable state: output stream (stderr, id 0, by
default), timestamp cache, write buffer, sequence-number flag and counter.
All operations on it run under `g_mutex` in the source; the embedding
sequentializes them. -/
structure BuiltinState where
  g_output : Option Nat
  g_tsCache : TimestampCache
  g_writeBuf : WriteBuffer
  g_seqEnabled : Bool
  g_seqCounter : Nat
deriving DecidableEq, Repr

/-- The id of the process standard error stream. -/
def stderrFile : Nat := 0

/-- Static initialization of the built-in backend's state. -/
def builtinInitialState : BuiltinState :=
  { g_output := some stderrFile
    g_tsCache := TimestampCache.mkDefault
    g_writeBuf := WriteBuffer.mkDefault
    g_seqEnabled := false
    g_seqCounter := 0 }

/-- The `snprintf` of a line into the 1280-byte stack buffer: the source
clamps the written length to `sizeof(line) - 1`. -/
def snprintf1280 (line : String) : String := snprintfClamp 1280 line

/-- `builtin_log_write`: look up the level string, obtain the timestamp
(resetting the sequence counter first when the cache refreshed and
sequencing is on), format `[timestamp] [LEVEL] message\n` (with `#N ` when
sequencing is on), and hand the line to the write buffer.  Ambient inputs:
the steady-clock instant `now` and the freshly formatted wall-clock string
`fmtNow`. -/
def builtin_log_write (st : BuiltinState) (level : LogLevel)
    (message : String) (now : Nat) (fmtNow : String) :
    BuiltinState × List SinkEv :=
  let level_str := g_levelStrings.getD level.rank ""
  if st.g_seqEnabled then
    let g := st.g_tsCache.get now fmtNow
    let counter := if g.2.2 then 0 else st.g_seqCounter
    let line := snprintf1280
      ("[" ++ g.2.1 ++ "] [" ++ level_str ++ "] #" ++ toString counter ++
        " " ++ message ++ "\n")
    let w := st.g_writeBuf.write st.g_output line
    ({ st with g_tsCache := g.1, g_seqCounter := counter + 1,
               g_writeBuf := w.1 }, w.2)
  else
    let g := st.g_tsCache.get now fmtNow
    let line := snprintf1280
      ("[" ++ g.2.1 ++ "] [" ++ level_str ++ "] " ++ message ++ "\n")
    let w := st.g_writeBuf.write st.g_output line
    ({ st with g_tsCache := g.1, g_writeBuf := w.1 }, w.2)

/-- The message `builtin_span_end` formats into its 256-byte buffer:
SPAN <name> took <elapsed_us> us, quoting the name. -/
def builtin_span_end_message (name : String) (elapsed_us : Int) : String :=
  snprintfClamp 256
    ("SPAN \x27" ++ name ++ "\x27 took " ++ toString elapsed_us ++ " us")

/-- `builtin_span_end`: format the span-completion message and route it
through `builtin_log_write` at the span's level. -/
def builtin_span_end (st : BuiltinState) (level : LogLevel) (name : String)
    (elapsed_us : Int) (now : Nat) (fmtNow : String) :
    BuiltinState × List SinkEv :=
  builtin_log_write st level (builtin_span_end_message name elapsed_us)
    now fmtNow

/-- `builtin_shutdown`: flush pending buffered data, reset the output to
stderr. -/
def builtin_shutdown (st : BuiltinState) : BuiltinState × List SinkEv :=
  let r := st.g_writeBuf.flush st.g_output
  ({ st with g_writeBuf := r.1, g_output := some stderrFile }, r.2)

/-- `builtin_set_output`: flush pending buffered data (to the OLD stream),
then switch to the given stream. -/
def builtin_set_output (st : BuiltinState) (file : Option Nat) :
    BuiltinState × List SinkEv :=
  let r := st.g_writeBuf.flush st.g_output
  ({ st with g_writeBuf := r.1, g_output := file }, r.2)

/-- `builtin_set_buffered`: enable or disable the write buffer. -/
def builtin_set_buffered (st : BuiltinState) (enabled : Bool)
    (buffer_size : Nat) : BuiltinState × List SinkEv :=
  if enabled then
    let r := st.g_writeBuf.enable st.g_output buffer_size
    ({ st with g_writeBuf := r.1 }, r.2)
  else
    let r := st.g_writeBuf.disable st.g_output
    ({ st with g_writeBuf := r.1 }, r.2)

/-- `builtin_flush`. -/
def builtin_flush (st : BuiltinState) : BuiltinState × List SinkEv :=
  let r := st.g_writeBuf.flush st.g_output
  ({ st with g_writeBuf := r.1 }, r.2)

/-- `builtin_set_timestamp_cache`: set the cache interval, set the
sequence flag, reset the counter to 0. -/
def builtin_set_timestamp_cache (st : BuiltinState) (interval_ms : Nat)
    (seq : Bool) : BuiltinState :=
  { st with g_tsCache := st.g_tsCache.set_interval_ms interval_ms
            g_seqEnabled := seq
            g_seqCounter := 0 }

/-! ### Write-buffer operation sequences (for the buffer invariants) -/

/-- One operation of the write-buffer surface. -/
inductive WBOp where
  | enableOp (output : Option Nat) (size : Nat)
  | disableOp (output : Option Nat)
  | writeOp (output : Option Nat) (data : String)
  | flushOp (output : Option Nat)
deriving DecidableEq, Repr

/-- Apply one operation. -/
def runWBOp (wb : WriteBuffer) : WBOp → WriteBuffer × List SinkEv
  | .enableOp output size => wb.enable output size
  | .disableOp output => wb.disable output
  | .writeOp output data => wb.write output data
  | .flushOp output => wb.flush output

/-- Apply a sequence of operations, accumulating sink events. -/
def runWBOps (wb : WriteBuffer) : List WBOp → WriteBuffer × List SinkEv
  | [] => (wb, [])
  | op :: rest =>
    let r := runWBOp wb op
    let rr := runWBOps r.1 rest
    (rr.1, r.2 ++ rr.2)

/-- An operation whose output-stream argument is non-null. -/
def wbOpLive : WBOp → Bool
  | .enableOp output _ => output.isSome
  | .disableOp output => output.isSome
  | .writeOp output _ => output.isSome
  | .flushOp output => output.isSome

/-! ### Auxiliary predicates over call sequences and traces -/

/-- A call that performs no reconfiguration: it contains neither
`set_level` nor `set_backend`. -/
def configFree : Call → Bool
  | .setLevelC _ => false
  | .setBackendC _ => false
  | .logC _ _ => true
  | .spanC _ _ body => configFree body
  | .seqC a b => configFree a && configFree b
  | .tick _ => true
  | .skip => true

/-- Trace soundness: every `log_write`/`span_begin`/`span_end` delivery in
the trace targets either the static placeholder or a descriptor whose
`init` call already appears among the events known to precede it. -/
def deliveredOk (known : List Event) : List Event → Prop
  | [] => True
  | e :: rest =>
      (∀ B, deliveredTo e = some B → B ≠ noopBackend → Event.initEv B ∈ known) ∧
      deliveredOk (known ++ [e]) rest

/-- The active backend is the static placeholder, or its `init` call is
among the known events. -/
def inited (s : DispatchState) (known : List Event) : Prop :=
  s.g_activeBackend = noopBackend ∨ Event.initEv s.g_activeBackend ∈ known

/-! ### Concrete descriptors used as test vectors -/

/-- A descriptor with a null `name` but all five operations present. -/
def namelessBackend : LogBackend :=
  { name := none, init := some 10, shutdown := some 11, log_write := some 12,
    span_begin := some 13, span_end := some 14 }

/-- A descriptor whose `span_end` operation pointer is null. -/
def lameBackend : LogBackend :=
  { name := some "lame", init := some 20, shutdown := some 21,
    log_write := some 22, span_begin := some 23, span_end := none }

/-- A complete, valid descriptor. -/
def fileBackend : LogBackend :=
  { name := some "file", init := some 30, shutdown := some 31,
    log_write := some 32, span_begin := some 33, span_end := some 34 }

/-! ## Helper lemmas -/

theorem rank_pos_of_ne_none {L : LogLevel} (h : L ≠ .LOG_LEVEL_NONE) :
    0 < L.rank := by
  cases L <;> simp_all [LogLevel.rank]

theorem tableAt_set_level_log (T : LogLevel) (s : DispatchState) (l : LogLevel) :
    tableAt (set_level T s).g_logFunctions l =
      if 0 < l.rank ∧ l.rank ≤ T.rank then .dispatch else .noop := by
  cases l <;> rfl

theorem tableAt_set_level_clock (T : LogLevel) (s : DispatchState) (l : LogLevel) :
    tableAt (set_level T s).g_clockFunctions l =
      if 0 < l.rank ∧ l.rank ≤ T.rank then .dispatch else .noop := by
  cases l <;> rfl

theorem tableAt_set_level_spanBegin (T : LogLevel) (s : DispatchState)
    (l : LogLevel) :
    tableAt (set_level T s).g_spanBeginFunctions l =
      if 0 < l.rank ∧ l.rank ≤ T.rank then .dispatch else .noop := by
  cases l <;> rfl

theorem tableAt_set_level_spanEnd (T : LogLevel) (s : DispatchState)
    (l : LogLevel) :
    tableAt (set_level T s).g_spanEndFunctions l =
      if 0 < l.rank ∧ l.rank ≤ T.rank then .dispatch else .noop := by
  cases l <;> rfl

/-- A reconfiguration-free call leaves the four tables, the current level
and the active backend untouched. -/
theorem configFree_preserves (c : Call) (s : DispatchState)
    (h : configFree c = true) :
    (runCall s c).1.g_logFunctions = s.g_logFunctions ∧
    (runCall s c).1.g_clockFunctions = s.g_clockFunctions ∧
    (runCall s c).1.g_spanBeginFunctions = s.g_spanBeginFunctions ∧
    (runCall s c).1.g_spanEndFunctions = s.g_spanEndFunctions ∧
    (runCall s c).1.g_currentLevel = s.g_currentLevel ∧
    (runCall s c).1.g_activeBackend = s.g_activeBackend := by
  induction c generalizing s with
  | setLevelC l => simp [configFree] at h
  | setBackendC ob => simp [configFree] at h
  | logC l text =>
    simp only [runCall]
    split <;> simp
  | spanC l name body ih =>
    simp only [configFree] at h
    simp only [runCall]
    exact ih s h
  | seqC a b iha ihb =>
    simp only [configFree, Bool.and_eq_true] at h
    simp only [runCall]
    obtain ⟨h1, h2, h3, h4, h5, h6⟩ := iha s h.1
    obtain ⟨g1, g2, g3, g4, g5, g6⟩ := ihb (runCall s a).1 h.2
    exact ⟨g1.trans h1, g2.trans h2, g3.trans h3, g4.trans h4,
      g5.trans h5, g6.trans h6⟩
  | tick n => simp [runCall]
  | skip => simp [runCall]

theorem deliveredOk_append (pre a b : List Event) :
    deliveredOk pre (a ++ b) ↔ deliveredOk pre a ∧ deliveredOk (pre ++ a) b := by
  induction a generalizing pre with
  | nil => simp [deliveredOk]
  | cons e rest ih =>
    simp only [List.cons_append, deliveredOk, List.append_eq, ih (pre ++ [e]),
      and_assoc]
    rw [show (pre ++ [e]) ++ rest = pre ++ e :: rest by simp]

theorem inited_mono {s : DispatchState} {pre : List Event} (more : List Event)
    (h : inited s pre) : inited s (pre ++ more) :=
  h.imp_right (List.mem_append_left more)

/-- Soundness of every trace: starting from a state whose active backend is
the placeholder or already initialized, every delivery in the produced
trace targets the placeholder or a previously initialized descriptor, and
the final state's active backend is again placeholder-or-initialized. -/
theorem runCall_deliveredOk (c : Call) (s : DispatchState) (pre : List Event)
    (h : inited s pre) :
    deliveredOk pre (runCall s c).2 ∧
      inited (runCall s c).1 (pre ++ (runCall s c).2) := by
  induction c generalizing s pre with
  | setLevelC l =>
    exact ⟨trivial, by simpa [runCall] using h⟩
  | setBackendC ob =>
    match ob with
    | none => exact ⟨trivial, by simpa [runCall, set_backend] using h⟩
    | some b =>
      by_cases hv : validBackend b = true
      · refine ⟨?_, ?_⟩
        · simp [runCall, set_backend, hv, deliveredOk, deliveredTo]
        · simp [runCall, set_backend, hv, inited]
      · exact ⟨by simp [runCall, set_backend, hv, deliveredOk],
          by simpa [runCall, set_backend, hv] using h⟩
  | logC l text =>
    simp only [runCall]
    rcases htab : tableAt s.g_logFunctions l with _ | _
    · exact ⟨trivial, by simpa using h⟩
    · refine ⟨⟨?_, trivial⟩, by simpa using inited_mono _ h⟩
      intro B hB hne
      simp only [deliveredTo, Option.some.injEq] at hB
      subst hB
      rcases h with h | h
      · exact absurd h hne
      · exact h
  | spanC l name body ih =>
    simp only [runCall]
    rcases hbeg : tableAt s.g_spanBeginFunctions l with _ | _
    · simp only
      obtain ⟨okBody, initedBody⟩ := ih s pre h
      rcases hend : tableAt (runCall s body).1.g_spanEndFunctions l with _ | _
      · simp only [List.nil_append, List.append_nil]
        exact ⟨okBody, initedBody⟩
      · simp only [List.nil_append]
        refine ⟨(deliveredOk_append _ _ _).2 ⟨okBody, ⟨?_, trivial⟩⟩, ?_⟩
        · intro B hB hne
          simp only [deliveredTo, Option.some.injEq] at hB
          subst hB
          rcases initedBody with hh | hh
          · exact absurd hh hne
          · exact hh
        · simpa [List.append_assoc] using inited_mono _ initedBody
    · simp only [List.singleton_append]
      have hpre1 : inited s (pre ++ [Event.spanBeginEv s.g_activeBackend l name]) :=
        inited_mono _ h
      obtain ⟨okBody, initedBody⟩ :=
        ih s (pre ++ [Event.spanBeginEv s.g_activeBackend l name]) hpre1
      have hfirst : ∀ B, deliveredTo (Event.spanBeginEv s.g_activeBackend l name) =
          some B → B ≠ noopBackend → Event.initEv B ∈ pre := by
        intro B hB hne
        simp only [deliveredTo, Option.some.injEq] at hB
        subst hB
        rcases h with hh | hh
        · exact absurd hh hne
        · exact hh
      rcases hend : tableAt (runCall s body).1.g_spanEndFunctions l with _ | _
      · simp only [List.append_nil]
        refine ⟨⟨hfirst, okBody⟩, ?_⟩
        simpa [List.append_assoc] using initedBody
      · refine ⟨⟨hfirst, (deliveredOk_append _ _ _).2 ⟨okBody, ⟨?_, trivial⟩⟩⟩, ?_⟩
        · intro B hB hne
          simp only [deliveredTo, Option.some.injEq] at hB
          subst hB
          rcases initedBody with hh | hh
          · exact absurd hh hne
          · exact hh
        · simpa [List.append_assoc] using inited_mono _ initedBody
  | seqC a b iha ihb =>
    simp only [runCall]
    obtain ⟨okA, initedA⟩ := iha s pre h
    obtain ⟨okB, initedB⟩ := ihb (runCall s a).1 (pre ++ (runCall s a).2) initedA
    refine ⟨(deliveredOk_append _ _ _).2 ⟨okA, okB⟩, ?_⟩
    simpa [List.append_assoc] using initedB
  | tick n => exact ⟨trivial, by simpa [runCall] using h⟩
  | skip => exact ⟨trivial, by simpa [runCall] using h⟩

/-! ## Claim C1 — level gating of log calls -/

/-- C1: for every threshold `T` set via `set_level` and every message level
`L`, a log call at `L` delivers the formatted message to the active
backend's `log_write` exactly when `L` is not `LOG_LEVEL_NONE` and
`rank L ≤ rank T`; in particular a call at `LOG_LEVEL_NONE` never
delivers, and under threshold `LOG_LEVEL_NONE` (rank 0) nothing passes. -/
theorem claim_C1_level_gating (s0 : DispatchState) (T L : LogLevel)
    (msg : String) :
    (runCall (runCall s0 (.setLevelC T)).1 (.logC L msg)).2 =
      if L ≠ LogLevel.LOG_LEVEL_NONE ∧ L.rank ≤ T.rank
      then [Event.logWriteEv s0.g_activeBackend L (vsnprintf1024 msg)]
      else [] := by
  cases L <;> cases T <;> rfl

/-! ## Claim C2 — rejection of invalid descriptors (corrected)

The source validation checks only the five operation pointers; the `name`
field is never examined.  A descriptor with a null name but five valid
operations is therefore installed, with full side effects, contradicting
the claim's "or D's name is missing" disjunct. -/

/-- C2, counterexample: `namelessBackend` has a missing name, yet
`set_backend` on it performs the full installation — the placeholder is
shut down, the descriptor is installed, and `get_backend` no longer
returns the previously active backend. -/
theorem claim_C2_counterexample :
    namelessBackend.name = none ∧
    runCall initState (.setBackendC (some namelessBackend)) =
      ({ initState with g_activeBackend := namelessBackend },
        [Event.shutdownEv noopBackend, Event.initEv namelessBackend]) ∧
    get_backend (runCall initState (.setBackendC (some namelessBackend))).1 ≠
      noopBackend := by
  refine ⟨rfl, rfl, ?_⟩
  decide

/-- C2, amended: for every descriptor `D` passed to `set_backend`, if `D`
is null or any of its five operations (init, shutdown, log_write,
span_begin, span_end) is null, then `set_backend` returns with no side
effects: the previously active backend is not shut down, remains
installed, and the dispatch tables are unchanged. -/
theorem claim_C2_amended (s : DispatchState) (ob : Option LogBackend)
    (h : ∀ D, ob = some D → validBackend D = false) :
    runCall s (.setBackendC ob) = (s, []) := by
  match ob with
  | none => rfl
  | some D =>
    have hD := h D rfl
    simp [runCall, set_backend, hD]

/-- Witness for C2: the descriptor with a null `span_end` is rejected with
no side effects. -/
theorem claim_C2_witness :
    (∀ D, (some lameBackend : Option LogBackend) = some D →
      validBackend D = false) ∧
    runCall initState (.setBackendC (some lameBackend)) = (initState, []) :=
  ⟨fun D hD => by cases hD; rfl,
    claim_C2_amended initState (some lameBackend)
      (fun D hD => by cases hD; rfl)⟩

/-! ## Claim C3 — backend lifecycle ordering -/

/-- C3: (first part) every installation of a valid descriptor `D` produces,
in order, `shutdown` on the previously active descriptor and then `init`
on the newly stored copy of `D` — for every prior state, including the
initial one whose active backend is the all-no-op placeholder; the copy is
in place when `init` runs (the post-state's active backend is `D`).
(second part) in the trace of any call sequence run from the initial
state, no `log_write` or span delivery reaches a descriptor other than the
placeholder before that descriptor's `init` event. -/
theorem claim_C3_lifecycle_ordering :
    (∀ (s : DispatchState) (D : LogBackend), validBackend D = true →
      runCall s (.setBackendC (some D)) =
        ({ s with g_activeBackend := D },
          [Event.shutdownEv s.g_activeBackend, Event.initEv D])) ∧
    (∀ c : Call, deliveredOk [] (runCall initState c).2) := by
  constructor
  · intro s D hD
    simp [runCall, set_backend, hD]
  · intro c
    exact (runCall_deliveredOk c initState [] (Or.inl rfl)).1

/-- Witness for C3: installing the concrete valid descriptor `fileBackend`
over the initial state shuts down the placeholder first, then initializes
the stored copy. -/
theorem claim_C3_witness :
    validBackend fileBackend = true ∧
    runCall initState (.setBackendC (some fileBackend)) =
      ({ initState with g_activeBackend := fileBackend },
        [Event.shutdownEv noopBackend, Event.initEv fileBackend]) :=
  ⟨rfl, claim_C3_lifecycle_ordering.1 initState fileBackend rfl⟩

/-! ## Claim C4 — span gating (corrected)

The claim quantifies over every level `L`, but a span at `LOG_LEVEL_NONE`
satisfies `rank L ≤ rank T` for every threshold while slot 0 of the span
tables is always wired to the no-ops, so no `span_begin`/`span_end` pair
is emitted — contradicting the "exactly one" branch of the claim. -/

/-- C4, counterexample: with a valid backend installed and threshold
`LOG_LEVEL_DEBUG`, a span at `LOG_LEVEL_NONE` has
`rank L ≤ rank T`, yet constructing and destroying it produces no backend
call at all (empty trace), where the claim as stated requires exactly one
`span_begin` and one `span_end`. -/
theorem claim_C4_counterexample :
    LogLevel.LOG_LEVEL_NONE.rank ≤ LogLevel.LOG_LEVEL_DEBUG.rank ∧
    (runCall
      (runCall initState (.seqC (.setBackendC (some fileBackend))
        (.setLevelC .LOG_LEVEL_DEBUG))).1
      (.spanC .LOG_LEVEL_NONE "idle" .skip)).2 = [] := by
  exact ⟨by decide, rfl⟩

/-- C4, amended: for every level `L` other than `LOG_LEVEL_NONE` and
threshold `T` (fixed across the span's lifetime, i.e. the body performs no
reconfiguration), constructing and then destroying a span at `L` invokes
exactly zero backend span callbacks when `rank L > rank T`, and otherwise
exactly one `span_begin` followed — after the body's own events — by
exactly one `span_end` with the same name: nesting order is preserved,
since the events of spans nested in the body lie strictly between the
outer pair. -/
theorem claim_C4_amended (s0 : DispatchState) (T L : LogLevel)
    (name : String) (body : Call)
    (hL : L ≠ LogLevel.LOG_LEVEL_NONE) (hb : configFree body = true) :
    (runCall (runCall s0 (.setLevelC T)).1 (.spanC L name body)).2 =
      if L.rank ≤ T.rank then
        Event.spanBeginEv s0.g_activeBackend L name ::
          ((runCall (runCall s0 (.setLevelC T)).1 body).2 ++
            [Event.spanEndEv s0.g_activeBackend L name
              (((runCall (runCall s0 (.setLevelC T)).1 body).1.time : Int) -
                (s0.time : Int))])
      else (runCall (runCall s0 (.setLevelC T)).1 body).2 := by
  have hpos : 0 < L.rank := rank_pos_of_ne_none hL
  have hs : (runCall s0 (.setLevelC T)).1 = set_level T s0 := rfl
  obtain ⟨p1, p2, p3, p4, p5, p6⟩ :=
    configFree_preserves body (set_level T s0) hb
  by_cases hrank : L.rank ≤ T.rank
  · simp only [hs, runCall, tableAt_set_level_clock, tableAt_set_level_spanBegin,
      p2, p4, p6, tableAt_set_level_spanEnd, if_pos (And.intro hpos hrank)]
    rw [if_pos hrank]
    simp [set_level]
  · simp only [hs, runCall, tableAt_set_level_clock, tableAt_set_level_spanBegin,
      p2, p4, p6, tableAt_set_level_spanEnd]
    have hcond : ¬ (0 < L.rank ∧ L.rank ≤ T.rank) := fun hc => hrank hc.2
    simp only [if_neg hcond]
    simp [hrank]

/-- Witness for C4: an INFO span under an INFO threshold, whose body lets
5 microseconds of clock time pass, produces exactly one begin/end pair
reporting 5 elapsed microseconds. -/
theorem claim_C4_witness :
    (runCall (runCall initState (.setLevelC .LOG_LEVEL_INFO)).1
        (.spanC .LOG_LEVEL_INFO "query" (.tick 5))).2 =
      [Event.spanBeginEv noopBackend .LOG_LEVEL_INFO "query",
        Event.spanEndEv noopBackend .LOG_LEVEL_INFO "query" 5] := by
  have h := claim_C4_amended initState .LOG_LEVEL_INFO .LOG_LEVEL_INFO "query"
    (.tick 5) (by decide) rfl
  simpa using h

/-! ## Claim C5 — timestamp cache (corrected)

The "two reads less than I apart return identical strings" consequence
fails when the two reads straddle a stored expiry: a read just before the
expiry reuses the old buffer and a read just after it recomputes, even
though the reads are less than I apart.  The consequence holds when the
first of the two reads is the one that recomputed (so the expiry is a full
interval away).  Likewise the sequence counter resets on every recompute,
including the recompute-every-call ones of interval 0, not only those "due
to interval expiry". -/

/-- C5, counterexample: interval I = 10; a refreshing read at instant 0
stores "A" and expiry 10; a read at instant 9 returns "A"; a read at
instant 10 — only 1 < 10 after the previous read — refreshes and returns
"B" ≠ "A", so two reads less than I apart return different strings. -/
theorem claim_C5_counterexample :
    (TimestampCache.mkDefault.set_interval_ms 10).get 0 "A" =
      (⟨10, "A", 10⟩, "A", true) ∧
    (⟨10, "A", 10⟩ : TimestampCache).get 9 "B" =
      ((⟨10, "A", 10⟩ : TimestampCache), "A", false) ∧
    (⟨10, "A", 10⟩ : TimestampCache).get 10 "B" =
      (⟨10, "B", 20⟩, "B", true) ∧
    10 - 9 < 10 ∧ "A" ≠ "B" := by
  refine ⟨rfl, rfl, rfl, by decide, by decide⟩

/-- C5, amended: (1) when the interval is 0, every read recomputes the
timestamp string; (2) with interval I > 0 a read strictly before the
stored expiry reuses the cached string unchanged; (3) a read at or past
the expiry recomputes and sets the expiry to the current instant plus the
interval; (4) two reads less than I apart, of which the first recomputed
the timestamp, return identical strings (and the second does not refresh);
(5) when sequencing is enabled the sequence counter resets to 0 exactly
when the read refreshed the timestamp; (6) so the first line emitted after
a refresh carries the sequence number 0. -/
theorem claim_C5_amended :
    (∀ (c : TimestampCache) (now : Nat) (fmtNow : String),
      c.m_interval_ms = 0 →
      c.get now fmtNow =
        ({ c with m_buf := snprintfClamp 32 fmtNow },
          snprintfClamp 32 fmtNow, true)) ∧
    (∀ (c : TimestampCache) (now : Nat) (fmtNow : String),
      c.m_interval_ms ≠ 0 → now < c.m_expiry →
      c.get now fmtNow = (c, c.m_buf, false)) ∧
    (∀ (c : TimestampCache) (now : Nat) (fmtNow : String),
      c.m_interval_ms ≠ 0 → c.m_expiry ≤ now →
      c.get now fmtNow =
        ({ c with m_buf := snprintfClamp 32 fmtNow,
                  m_expiry := now + c.m_interval_ms },
          snprintfClamp 32 fmtNow, true)) ∧
    (∀ (c : TimestampCache) (t1 t2 : Nat) (fmt1 fmt2 : String),
      c.m_interval_ms ≠ 0 → c.m_expiry ≤ t1 → t2 < t1 + c.m_interval_ms →
      ((c.get t1 fmt1).1.get t2 fmt2).2.1 = (c.get t1 fmt1).2.1 ∧
      ((c.get t1 fmt1).1.get t2 fmt2).2.2 = false) ∧
    (∀ (st : BuiltinState) (L : LogLevel) (msg : String) (now : Nat)
        (fmtNow : String),
      st.g_seqEnabled = true →
      (builtin_log_write st L msg now fmtNow).1.g_seqCounter =
        (if (st.g_tsCache.get now fmtNow).2.2 then 0 else st.g_seqCounter) + 1) ∧
    (∀ (st : BuiltinState) (L : LogLevel) (msg : String) (now : Nat)
        (fmtNow : String) (f : Nat),
      st.g_seqEnabled = true → st.g_writeBuf.m_enabled = false →
      st.g_output = some f → (st.g_tsCache.get now fmtNow).2.2 = true →
      (builtin_log_write st L msg now fmtNow).2 =
        [SinkEv.fwriteEv f (snprintf1280
            ("[" ++ (st.g_tsCache.get now fmtNow).2.1 ++ "] [" ++
              g_levelStrings.getD L.rank "" ++ "] #" ++ toString (0 : Nat) ++
              " " ++ msg ++ "\n")),
          SinkEv.fflushEv f]) := by
  refine ⟨?_, ?_, ?_, ?_, ?_, ?_⟩
  · intro c now fmtNow h
    simp [TimestampCache.get, h]
  · intro c now fmtNow hI hlt
    simp [TimestampCache.get, hI, Nat.not_le.mpr hlt]
  · intro c now fmtNow hI hle
    simp [TimestampCache.get, hI, hle]
  · intro c t1 t2 fmt1 fmt2 hI hle hlt
    have h1 : c.get t1 fmt1 =
        ({ c with m_buf := snprintfClamp 32 fmt1,
                  m_expiry := t1 + c.m_interval_ms },
          snprintfClamp 32 fmt1, true) := by
      simp [TimestampCache.get, hI, hle]
    rw [h1]
    simp [TimestampCache.get, hI, Nat.not_le.mpr hlt]
  · intro st L msg now fmtNow hseq
    rcases hr : (st.g_tsCache.get now fmtNow).2.2
    · simp [builtin_log_write, hseq, hr]
    · simp [builtin_log_write, hseq, hr]
  · intro st L msg now fmtNow f hseq hbuf hout hrefresh
    simp [builtin_log_write, hseq, hrefresh, WriteBuffer.write, hbuf, hout,
      directWrite]

/-- Witness for C5: interval 10, a refreshing read at instant 0 followed by
a read at instant 9 — the two reads return the same string and the second
does not refresh. -/
theorem claim_C5_witness :
    (((⟨10, "", 0⟩ : TimestampCache).get 0 "A").1.get 9 "B").2.1 =
      ((⟨10, "", 0⟩ : TimestampCache).get 0 "A").2.1 ∧
    (((⟨10, "", 0⟩ : TimestampCache).get 0 "A").1.get 9 "B").2.2 = false :=
  claim_C5_amended.2.2.2.1 ⟨10, "", 0⟩ 0 9 "A" "B" (by decide) (by decide)
    (by decide)

/-! ## Claim C6 — write-buffer batching -/

/-- C6: in enabled mode with capacity C (buffer allocated):
(1) a write smaller than C that still fits accumulates in the buffer and
nothing reaches the sink; (2) a write smaller than C that would exceed C
first flushes the existing content to the sink, then accumulates; (3) a
single write of at least C flushes any existing buffered content and then
writes the data directly to the sink ("larger than C" in the claim — the
source takes this path for len >= C); (4) the same write with an empty
buffer goes directly to the sink with no preceding flush; (5) `flush`
delivers exactly the pending bytes; (6) `disable` always flushes pending
content before freeing the buffer and clearing all state. -/
theorem claim_C6_write_buffering :
    (∀ (wb : WriteBuffer) (f : Nat) (data : String),
      wb.m_enabled = true → wb.m_allocated = true →
      data.length < wb.m_size → wb.m_data.length + data.length ≤ wb.m_size →
      wb.write (some f) data = ({ wb with m_data := wb.m_data ++ data }, [])) ∧
    (∀ (wb : WriteBuffer) (f : Nat) (data : String),
      wb.m_enabled = true → wb.m_allocated = true →
      data.length < wb.m_size → wb.m_size < wb.m_data.length + data.length →
      wb.write (some f) data =
        ({ wb with m_data := data },
          [SinkEv.fwriteEv f wb.m_data, SinkEv.fflushEv f])) ∧
    (∀ (wb : WriteBuffer) (f : Nat) (data : String),
      wb.m_enabled = true → wb.m_allocated = true →
      wb.m_size ≤ data.length → 0 < wb.m_data.length →
      wb.write (some f) data =
        ({ wb with m_data := "" },
          [SinkEv.fwriteEv f wb.m_data, SinkEv.fflushEv f,
            SinkEv.fwriteEv f data, SinkEv.fflushEv f])) ∧
    (∀ (wb : WriteBuffer) (f : Nat) (data : String),
      wb.m_enabled = true → wb.m_allocated = true →
      wb.m_size ≤ data.length → wb.m_data = "" →
      wb.write (some f) data =
        (wb, [SinkEv.fwriteEv f data, SinkEv.fflushEv f])) ∧
    (∀ (wb : WriteBuffer) (f : Nat), 0 < wb.m_data.length →
      wb.flush (some f) =
        ({ wb with m_data := "" },
          [SinkEv.fwriteEv f wb.m_data, SinkEv.fflushEv f])) ∧
    (∀ (wb : WriteBuffer) (f : Nat),
      wb.disable (some f) =
        (WriteBuffer.mkDefault,
          if 0 < wb.m_data.length
          then [SinkEv.fwriteEv f wb.m_data, SinkEv.fflushEv f]
          else [])) := by
  refine ⟨?_, ?_, ?_, ?_, ?_, ?_⟩
  · intro wb f data hen hal hlt hfit
    simp [WriteBuffer.write, hen, hal, Nat.not_le.mpr hlt,
      Nat.not_lt.mpr hfit]
  · intro wb f data hen hal hlt hover
    have hpos : 0 < wb.m_data.length := by
      by_contra hz
      have : wb.m_data.length = 0 := Nat.eq_zero_of_not_pos hz
      omega
    simp [WriteBuffer.write, hen, hal, Nat.not_le.mpr hlt, hover,
      WriteBuffer.flush, hpos]
  · intro wb f data hen hal hge hpos
    simp [WriteBuffer.write, hen, hal, hge, WriteBuffer.flush, hpos,
      directWrite]
  · intro wb f data hen hal hge hemp
    simp [WriteBuffer.write, hen, hal, hge, WriteBuffer.flush, hemp,
      directWrite]
  · intro wb f hpos
    simp [WriteBuffer.flush, hpos]
  · intro wb f
    rcases Nat.eq_zero_or_pos wb.m_data.length with hz | hpos
    · simp [WriteBuffer.disable, WriteBuffer.flush, hz, WriteBuffer.mkDefault]
    · simp [WriteBuffer.disable, WriteBuffer.flush, hpos, WriteBuffer.mkDefault]

/-- Witness for C6: an enabled 8-byte buffer holding "ab" accumulates a
2-byte write without touching the sink. -/
theorem claim_C6_witness :
    (⟨true, true, 8, "ab"⟩ : WriteBuffer).write (some 1) "cd" =
      ((⟨true, true, 8, "abcd"⟩ : WriteBuffer), []) := by
  have h := claim_C6_write_buffering.1 ⟨true, true, 8, "ab"⟩ 1 "cd" rfl rfl
    (by decide) (by decide)
  exact h

/-! ## Claim C7 — bit-exact line format of the built-in backend -/

/-- C7: every line the built-in backend emits (the unbuffered path shown;
the buffered path hands the identical line to the write buffer) follows
the format contract: (1) without sequence numbers the line is exactly
the concatenation [timestamp] [LEVEL] message newline; (2) with sequence
numbers the line carries #N after the level, where N is 0 exactly on a
refresh; (3) for every message level other than LOG_LEVEL_NONE the LEVEL
field is one of the fixed-width strings ERROR, WARN-space, INFO-space,
DEBUG; (4) a span completion is routed through the very same
`builtin_log_write` at the span's level, (5) carrying the message
SPAN <quoted name> took <elapsed_us> us; (6) and the timestamp string
produced by refresh has the YYYY-MM-DD HH:MM:SS.mmm shape (concrete
instance of `formatTimestamp`).  The length hypotheses state that the line
fits its stack buffer, whose overflow the source handles by silent
truncation (spec section 7). -/
theorem claim_C7_line_format :
    (∀ (st : BuiltinState) (L : LogLevel) (msg : String) (now : Nat)
        (fmtNow : String) (f : Nat),
      st.g_seqEnabled = false → st.g_writeBuf.m_enabled = false →
      st.g_output = some f →
      ("[" ++ (st.g_tsCache.get now fmtNow).2.1 ++ "] [" ++
          g_levelStrings.getD L.rank "" ++ "] " ++ msg ++ "\n").length < 1280 →
      (builtin_log_write st L msg now fmtNow).2 =
        [SinkEv.fwriteEv f ("[" ++ (st.g_tsCache.get now fmtNow).2.1 ++ "] [" ++
            g_levelStrings.getD L.rank "" ++ "] " ++ msg ++ "\n"),
          SinkEv.fflushEv f]) ∧
    (∀ (st : BuiltinState) (L : LogLevel) (msg : String) (now : Nat)
        (fmtNow : String) (f : Nat),
      st.g_seqEnabled = true → st.g_writeBuf.m_enabled = false →
      st.g_output = some f →
      ("[" ++ (st.g_tsCache.get now fmtNow).2.1 ++ "] [" ++
          g_levelStrings.getD L.rank "" ++ "] #" ++
          toString (if (st.g_tsCache.get now fmtNow).2.2 then 0
            else st.g_seqCounter) ++ " " ++ msg ++ "\n").length < 1280 →
      (builtin_log_write st L msg now fmtNow).2 =
        [SinkEv.fwriteEv f ("[" ++ (st.g_tsCache.get now fmtNow).2.1 ++ "] [" ++
            g_levelStrings.getD L.rank "" ++ "] #" ++
            toString (if (st.g_tsCache.get now fmtNow).2.2 then 0
              else st.g_seqCounter) ++ " " ++ msg ++ "\n"),
          SinkEv.fflushEv f]) ∧
    (∀ L : LogLevel, L ≠ .LOG_LEVEL_NONE →
      g_levelStrings.getD L.rank "" ∈
        (["ERROR", "WARN ", "INFO ", "DEBUG"] : List String)) ∧
    (∀ (st : BuiltinState) (L : LogLevel) (name : String) (elapsed : Int)
        (now : Nat) (fmtNow : String),
      builtin_span_end st L name elapsed now fmtNow =
        builtin_log_write st L (builtin_span_end_message name elapsed)
          now fmtNow) ∧
    (∀ (name : String) (elapsed : Int),
      ("SPAN \x27" ++ name ++ "\x27 took " ++ toString elapsed ++
        " us").length < 256 →
      builtin_span_end_message name elapsed =
        "SPAN \x27" ++ name ++ "\x27 took " ++ toString elapsed ++ " us") ∧
    formatTimestamp ⟨2025, 3, 7, 9, 30, 5, 42⟩ = "2025-03-07 09:30:05.042" := by
  refine ⟨?_, ?_, ?_, ?_, ?_, ?_⟩
  · intro st L msg now fmtNow f hseq hbuf hout hlen
    simp [builtin_log_write, hseq, snprintf1280, snprintfClamp,
      WriteBuffer.write, hbuf, hout, directWrite]
    intro hc
    exfalso
    simp at hlen
    omega
  · intro st L msg now fmtNow f hseq hbuf hout hlen
    rcases hr : (st.g_tsCache.get now fmtNow).2.2
    · rw [hr] at hlen
      simp at hlen
      simp [builtin_log_write, hseq, hr, snprintf1280, snprintfClamp,
        WriteBuffer.write, hbuf, hout, directWrite]
      intro hc
      exfalso
      omega
    · rw [hr] at hlen
      simp at hlen
      simp [builtin_log_write, hseq, hr, snprintf1280, snprintfClamp,
        WriteBuffer.write, hbuf, hout, directWrite]
      intro hc
      exfalso
      omega
  · intro L hL
    cases L
    · exact absurd rfl hL
    all_goals simp [g_levelStrings, LogLevel.rank]
  · intro st L name elapsed now fmtNow
    rfl
  · intro name elapsed hlen
    simp [builtin_span_end_message, snprintfClamp]
    intro hc
    exfalso
    simp at hlen
    omega
  · rfl

/-- Witness for C7: from the initial built-in state, an INFO log of "x"
at a concrete wall-clock instant emits exactly one formatted line to
stderr followed by a flush. -/
theorem claim_C7_witness :
    (builtin_log_write builtinInitialState .LOG_LEVEL_INFO "x" 0
        "2025-03-07 09:30:05.042").2 =
      [SinkEv.fwriteEv 0 "[2025-03-07 09:30:05.042] [INFO ] x\n",
        SinkEv.fflushEv 0] := by
  have h := claim_C7_line_format.1 builtinInitialState .LOG_LEVEL_INFO "x" 0
    "2025-03-07 09:30:05.042" 0 rfl rfl rfl (by decide)
  simpa using h

/-! ## Claim C8 — round-trip consistency of installation -/

/-- C8: after installing a valid descriptor `D`, `get_backend` returns
(a pointer to) a stored descriptor equal to `D` — same name and same five
operations — an independent by-value copy held in process-wide storage. -/
theorem claim_C8_roundtrip (s : DispatchState) (D : LogBackend)
    (h : validBackend D = true) :
    get_backend (runCall s (.setBackendC (some D))).1 = D ∧
    (get_backend (runCall s (.setBackendC (some D))).1).name = D.name ∧
    (get_backend (runCall s (.setBackendC (some D))).1).init = D.init ∧
    (get_backend (runCall s (.setBackendC (some D))).1).shutdown = D.shutdown ∧
    (get_backend (runCall s (.setBackendC (some D))).1).log_write = D.log_write ∧
    (get_backend (runCall s (.setBackendC (some D))).1).span_begin = D.span_begin ∧
    (get_backend (runCall s (.setBackendC (some D))).1).span_end = D.span_end := by
  have he : get_backend (runCall s (.setBackendC (some D))).1 = D := by
    simp [runCall, set_backend, h, get_backend]
  exact ⟨he, by rw [he], by rw [he], by rw [he], by rw [he], by rw [he],
    by rw [he]⟩

/-- Witness for C8: installing `fileBackend` and reading it back. -/
theorem claim_C8_witness :
    get_backend (runCall initState (.setBackendC (some fileBackend))).1 =
      fileBackend :=
  (claim_C8_roundtrip initState fileBackend rfl).1

/-! ## Claim C9 — write-buffer invariants (corrected)

`flush` refuses to touch a null stream and leaves the fill position
untouched, while the buffered-write path appends regardless; with a null
output stream a write that no longer fits therefore pushes the fill
position past the capacity (in the C++ this is the memcpy walking past
the allocation).  On non-null streams the claimed invariants hold. -/

/-- C9, counterexample: enable a 4-byte buffer and perform two 3-byte
writes, all against a null output stream.  The second write cannot flush
(null-stream guard) yet still appends: the fill position reaches 6 > 4,
violating the claimed fill-never-exceeds-capacity invariant. -/
theorem claim_C9_counterexample :
    (runWBOps WriteBuffer.mkDefault
      [.enableOp none 4, .writeOp none "abc", .writeOp none "def"]).1 =
      (⟨true, true, 4, "abcdef"⟩ : WriteBuffer) ∧
    ¬ ((runWBOps WriteBuffer.mkDefault
        [.enableOp none 4, .writeOp none "abc", .writeOp none "def"]).1.m_data.length ≤
      (runWBOps WriteBuffer.mkDefault
        [.enableOp none 4, .writeOp none "abc", .writeOp none "def"]).1.m_size) := by
  refine ⟨rfl, by decide⟩

/-- Helper: on non-null streams, a single operation preserves the
fill-position-within-capacity invariant. -/
theorem wb_pos_le_size_preserved (wb : WriteBuffer) (op : WBOp)
    (h : wb.m_data.length ≤ wb.m_size) (hl : wbOpLive op = true) :
    (runWBOp wb op).1.m_data.length ≤ (runWBOp wb op).1.m_size := by
  match op with
  | .enableOp output size =>
    match output with
    | some f =>
      by_cases hp : 0 < wb.m_data.length <;>
        by_cases hsz : (wb.flush (some f)).1.m_size = size <;>
          simp_all [runWBOp, WriteBuffer.enable, WriteBuffer.flush]
    | none => simp [wbOpLive] at hl
  | .disableOp output =>
    simp [runWBOp, WriteBuffer.disable]
  | .flushOp output =>
    match output with
    | some f =>
      by_cases hp : 0 < wb.m_data.length <;>
        simp_all [runWBOp, WriteBuffer.flush]
    | none => simp [wbOpLive] at hl
  | .writeOp output data =>
    match output with
    | some f =>
      by_cases hen : wb.m_enabled
      · by_cases hal : wb.m_allocated
        · simp only [runWBOp, WriteBuffer.write, hen, hal, Bool.not_true,
            Bool.or_self, Bool.false_eq_true, if_false]
          by_cases hge : wb.m_size ≤ data.length
          · rw [if_pos hge]
            simp only [WriteBuffer.flush]
            by_cases hp : 0 < wb.m_data.length
            · rw [if_pos hp]
              simp
            · rw [if_neg hp]
              simpa using h
          · rw [if_neg hge]
            by_cases hover : wb.m_size < wb.m_data.length + data.length
            · rw [if_pos hover]
              have hp : 0 < wb.m_data.length := by omega
              simp only [WriteBuffer.flush, if_pos hp]
              simp only [String.length_append]
              simp
              omega
            · rw [if_neg hover]
              simp only [String.length_append]
              simp
              omega
        · simp only [runWBOp, WriteBuffer.write]
          rw [if_pos (by simp [hal])]
          exact h
      · simp only [runWBOp, WriteBuffer.write]
        rw [if_pos (by simp [hen])]
        exact h
    | none => simp [wbOpLive] at hl

/-- Helper: the invariant holds after any sequence of operations on
non-null streams. -/
theorem wb_pos_le_size_ops (ops : List WBOp) (wb : WriteBuffer)
    (h : wb.m_data.length ≤ wb.m_size)
    (hl : ∀ op ∈ ops, wbOpLive op = true) :
    (runWBOps wb ops).1.m_data.length ≤ (runWBOps wb ops).1.m_size := by
  induction ops generalizing wb with
  | nil => simpa [runWBOps] using h
  | cons op rest ih =>
    simp only [runWBOps]
    exact ih (runWBOp wb op).1
      (wb_pos_le_size_preserved wb op h (hl op (List.mem_cons_self op rest)))
      (fun o ho => hl o (List.mem_cons_of_mem op ho))

/-- C9, amended: provided every operation is given a non-null output
stream, (1) at every intermediate point of every operation sequence from
the initial buffer the fill position never exceeds the capacity; and the
accumulated bytes are flushed to the sink (2) before the buffer is
(re)sized by `enable`, (3) before buffering is disabled, and (4) before
the built-in backend's output target is changed via `builtin_set_output`
(flushed to the old stream), leaving an empty fill in each case. -/
theorem claim_C9_amended :
    (∀ (ops : List WBOp) (n : Nat), (∀ op ∈ ops, wbOpLive op = true) →
      (runWBOps WriteBuffer.mkDefault (ops.take n)).1.m_data.length ≤
        (runWBOps WriteBuffer.mkDefault (ops.take n)).1.m_size) ∧
    (∀ (wb : WriteBuffer) (f : Nat) (size : Nat),
      (wb.enable (some f) size).2 =
        (if 0 < wb.m_data.length
          then [SinkEv.fwriteEv f wb.m_data, SinkEv.fflushEv f] else []) ∧
      (wb.enable (some f) size).1.m_data.length = 0) ∧
    (∀ (wb : WriteBuffer) (f : Nat),
      (wb.disable (some f)).2 =
        (if 0 < wb.m_data.length
          then [SinkEv.fwriteEv f wb.m_data, SinkEv.fflushEv f] else []) ∧
      (wb.disable (some f)).1.m_data.length = 0) ∧
    (∀ (st : BuiltinState) (f : Nat) (file : Option Nat),
      st.g_output = some f →
      (builtin_set_output st file).2 =
        (if 0 < st.g_writeBuf.m_data.length
          then [SinkEv.fwriteEv f st.g_writeBuf.m_data, SinkEv.fflushEv f]
          else []) ∧
      (builtin_set_output st file).1.g_output = file ∧
      (builtin_set_output st file).1.g_writeBuf.m_data.length = 0) := by
  refine ⟨?_, ?_, ?_, ?_⟩
  · intro ops n hl
    exact wb_pos_le_size_ops (ops.take n) WriteBuffer.mkDefault (by decide)
      (fun o ho => hl o (List.take_subset n ops ho))
  · intro wb f size
    by_cases hp : 0 < wb.m_data.length
    · by_cases hsz : (wb.flush (some f)).1.m_size = size <;>
        simp_all [WriteBuffer.enable, WriteBuffer.flush]
    · by_cases hsz : (wb.flush (some f)).1.m_size = size <;>
        simp_all [WriteBuffer.enable, WriteBuffer.flush]
  · intro wb f
    by_cases hp : 0 < wb.m_data.length <;>
      simp_all [WriteBuffer.disable, WriteBuffer.flush]
  · intro st f file hout
    by_cases hp : 0 < st.g_writeBuf.m_data.length <;>
      simp_all [builtin_set_output, WriteBuffer.flush]

/-- Witness for C9: a concrete three-operation sequence on a live stream
keeps the fill position within the 4-byte capacity. -/
theorem claim_C9_witness :
    (runWBOps WriteBuffer.mkDefault
      ([.enableOp (some 1) 4, .writeOp (some 1) "abc",
        .writeOp (some 1) "def"].take 3)).1.m_data.length ≤
      (runWBOps WriteBuffer.mkDefault
        ([.enableOp (some 1) 4, .writeOp (some 1) "abc",
          .writeOp (some 1) "def"].take 3)).1.m_size :=
  claim_C9_amended.1
    [.enableOp (some 1) 4, .writeOp (some 1) "abc", .writeOp (some 1) "def"]
    3 (by decide)

/-! ## Claim C10 — pre-initialization safety -/

/-- Every slot of the statically initialized tables is the no-op. -/
theorem tableAt_initialTables (l : LogLevel) :
    tableAt initialTables l = .noop := by
  cases l <;> rfl

/-- Helper: from any state whose four tables are still the static all-no-op
tables, a reconfiguration-free call produces no backend event at all. -/
theorem configFree_noop_trace (c : Call) (s : DispatchState)
    (hc : configFree c = true)
    (h1 : s.g_logFunctions = initialTables)
    (h2 : s.g_clockFunctions = initialTables)
    (h3 : s.g_spanBeginFunctions = initialTables)
    (h4 : s.g_spanEndFunctions = initialTables) :
    (runCall s c).2 = [] := by
  induction c generalizing s with
  | setLevelC l => simp [configFree] at hc
  | setBackendC ob => simp [configFree] at hc
  | logC l text =>
    simp only [runCall, h1, tableAt_initialTables]
  | spanC l name body ih =>
    simp only [configFree] at hc
    obtain ⟨p1, p2, p3, p4, p5, p6⟩ := configFree_preserves body s hc
    simp only [runCall, h3, h4, tableAt_initialTables, p4,
      ih s hc h1 h2 h3 h4]
    rfl
  | seqC a b iha ihb =>
    simp only [configFree, Bool.and_eq_true] at hc
    obtain ⟨p1, p2, p3, p4, p5, p6⟩ := configFree_preserves a s hc.1
    simp only [runCall, iha s hc.1 h1 h2 h3 h4,
      ihb (runCall s a).1 hc.2 (p1.trans h1) (p2.trans h2) (p3.trans h3)
        (p4.trans h4)]
    rfl
  | tick n => rfl
  | skip => rfl

/-- C10: before `init`, `set_level` or `set_backend` is ever called, every
log call and every span construction/destruction, at any level and in any
combination, has no observable effect: all four dispatch tables are
statically wired to the no-op entries (and stay so), the active backend is
the all-no-op placeholder (and stays so), and the produced backend-event
trace is empty — pre-initialization calls are silently dropped. -/
theorem claim_C10_preinit_safe (c : Call) (hc : configFree c = true) :
    (runCall initState c).2 = [] ∧
    (runCall initState c).1.g_logFunctions = initialTables ∧
    (runCall initState c).1.g_clockFunctions = initialTables ∧
    (runCall initState c).1.g_spanBeginFunctions = initialTables ∧
    (runCall initState c).1.g_spanEndFunctions = initialTables ∧
    (runCall initState c).1.g_activeBackend = noopBackend := by
  obtain ⟨p1, p2, p3, p4, p5, p6⟩ := configFree_preserves c initState hc
  exact ⟨configFree_noop_trace c initState hc rfl rfl rfl rfl,
    p1.trans rfl, p2.trans rfl, p3.trans rfl, p4.trans rfl, p6.trans rfl⟩

/-- Witness for C10: an ERROR log followed by a DEBUG span wrapping an
INFO log, all before initialization, produce an empty trace and leave the
static state untouched. -/
theorem claim_C10_witness :
    (runCall initState (.seqC (.logC .LOG_LEVEL_ERROR "boom")
        (.spanC .LOG_LEVEL_DEBUG "work" (.logC .LOG_LEVEL_INFO "inner")))).2
      = [] ∧
    (runCall initState (.seqC (.logC .LOG_LEVEL_ERROR "boom")
        (.spanC .LOG_LEVEL_DEBUG "work"
          (.logC .LOG_LEVEL_INFO "inner")))).1.g_logFunctions =
      initialTables ∧
    (runCall initState (.seqC (.logC .LOG_LEVEL_ERROR "boom")
        (.spanC .LOG_LEVEL_DEBUG "work"
          (.logC .LOG_LEVEL_INFO "inner")))).1.g_clockFunctions =
      initialTables ∧
    (runCall initState (.seqC (.logC .LOG_LEVEL_ERROR "boom")
        (.spanC .LOG_LEVEL_DEBUG "work"
          (.logC .LOG_LEVEL_INFO "inner")))).1.g_spanBeginFunctions =
      initialTables ∧
    (runCall initState (.seqC (.logC .LOG_LEVEL_ERROR "boom")
        (.spanC .LOG_LEVEL_DEBUG "work"
          (.logC .LOG_LEVEL_INFO "inner")))).1.g_spanEndFunctions =
      initialTables ∧
    (runCall initState (.seqC (.logC .LOG_LEVEL_ERROR "boom")
        (.spanC .LOG_LEVEL_DEBUG "work"
          (.logC .LOG_LEVEL_INFO "inner")))).1.g_activeBackend =
      noopBackend :=
  claim_C10_preinit_safe
    (.seqC (.logC .LOG_LEVEL_ERROR "boom")
      (.spanC .LOG_LEVEL_DEBUG "work" (.logC .LOG_LEVEL_INFO "inner")))
    (by decide)

end Lumberjack
